import Mathlib

/-!
Shallow embedding of the ict-evm end-to-end harness.

The embedded code comes from two Go files:
* the `eth` package (SendEth, ForgeCreate, CastSend, CastCall), which drives
  external `cast`/`forge` child processes, and
* `examples/ethereum/e2esuite/jackal_relay.go` (StopContainer,
  StopContainerByImage, decodeConfigYAML, encodeConfigYAML,
  UpdateMulberryConfigRPC, UpdateMulberryConfigEVM), which drives a container
  runtime and a YAML configuration file.

External systems (child processes, the container runtime, the file system)
are passed in as explicit parameters, so every function is a pure Lean
function of the code's inputs plus the observed behaviour of its
collaborators.
-/

/-- Result of running an external child process: its exit code, the bytes it
wrote to the captured stdout and stderr pipes, and the message of the Go
`error` value that `cmd.Run()` returns when the exit code is nonzero
(for a process that exited with code `n` this is `"exit status n"`). -/
structure ToolResult where
  exitCode : Nat
  stdout : String
  stderr : String
  errMsg : String
deriving DecidableEq

/-- Go `unicode.IsSpace` restricted to the Latin-1 range, which is the set of
characters the Go standard library treats as white space when splitting
fields and trimming: space, tab, newline, vertical tab, form feed, carriage
return, next line (U+0085) and no-break space (U+00A0). -/
def goIsSpace (c : Char) : Bool :=
  c == ' ' || c == '\t' || c == '\n' || c == Char.ofNat 11 ||
    c == Char.ofNat 12 || c == '\r' || c == Char.ofNat 0x85 || c == Char.ofNat 0xA0

/-- Character-list version of Go `strings.HasPrefix`. -/
def startsWithChars : List Char → List Char → Bool
  | _, [] => true
  | [], _ :: _ => false
  | a :: s, b :: t => a == b && startsWithChars s t

/-- Does `sub` occur as a contiguous run inside `s`? -/
def containsChars : List Char → List Char → Bool
  | [], sub => startsWithChars [] sub
  | a :: s, sub => startsWithChars (a :: s) sub || containsChars s sub

/-- Go `strings.Contains s sub`. -/
def strContains (s sub : String) : Bool :=
  containsChars s.data sub.data

/-- Go `strings.HasPrefix s p`. -/
def goStartsWith (s p : String) : Bool :=
  startsWithChars s.data p.data

/-- Accumulator loop behind `goSplitLines`. -/
def splitLinesChars : List Char → List Char → List String
  | [], acc => [String.mk acc.reverse]
  | c :: rest, acc =>
    if c == '\n' then String.mk acc.reverse :: splitLinesChars rest []
    else splitLinesChars rest (c :: acc)

/-- Go `strings.Split s "\n"`: the list of chunks of `s` between newline
characters, keeping empty chunks. -/
def goSplitLines (s : String) : List String :=
  splitLinesChars s.data []

/-- Accumulator loop behind `goFields`. -/
def fieldsAux : List Char → List Char → List String
  | [], acc => if acc.isEmpty then [] else [String.mk acc.reverse]
  | c :: rest, acc =>
    if goIsSpace c then
      if acc.isEmpty then fieldsAux rest []
      else String.mk acc.reverse :: fieldsAux rest []
    else fieldsAux rest (c :: acc)

/-- Go `strings.Fields s`: the maximal runs of non-white-space characters of
`s`, in order. -/
def goFields (s : String) : List String :=
  fieldsAux s.data []

/-- Go `strings.TrimSpace s`: `s` with every leading and every trailing
white-space character removed. -/
def goTrimSpace (s : String) : String :=
  String.mk (((s.data.dropWhile goIsSpace).reverse.dropWhile goIsSpace).reverse)

/-- Go `strings.Join l sep`. -/
def goJoin (sep : String) : List String → String
  | [] => ""
  | [x] => x
  | x :: y :: xs => x ++ sep ++ goJoin sep (y :: xs)

/-- Go `fmt.Sprintf "%v" l` for a string slice: the elements joined by single
spaces between square brackets. -/
def fmtStrList (l : List String) : String :=
  "[" ++ goJoin " " l ++ "]"

/-- The argv of the `cast send` child process built by `Ethereum.SendEth`.
The private key is represented by its hex serialization `keyHex`
(Go computes it as `ethcommon.Bytes2Hex(key.D.Bytes())`). -/
def sendEthArgs (keyHex toAddress amount rpc : String) : List String :=
  ["cast", "send", toAddress,
    "--value", amount,
    "--private-key", "0x" ++ keyHex,
    "--rpc-url", rpc]

/-- Model of `Ethereum.SendEth` from the `eth` package. The child process is modelled
by `run`, mapping the argv to the observed `ToolResult`; stdout and stderr of
the child are wired to the harness's own stdout/stderr (`cmd.Stdout =
os.Stdout; cmd.Stderr = os.Stderr`), so nothing of them is captured. Returns
`none` on success and `some msg` for the Go error message on failure, which
wraps the joined argv and the process error. -/
def SendEth (run : List String → ToolResult) (keyHex toAddress amount rpc : String) :
    Option String :=
  let r := run (sendEthArgs keyHex toAddress amount rpc)
  if r.exitCode = 0 then none
  else some ("failed to send eth with " ++ goJoin " " (sendEthArgs keyHex toAddress amount rpc)
    ++ ": " ++ r.errMsg)

/-- The argv of the `forge create` child process built by
`Ethereum.ForgeCreate`. -/
def forgeCreateArgs (keyHex contractName contractPath rpc : String) : List String :=
  ["forge", "create",
    contractPath ++ ":" ++ contractName,
    "--rpc-url", rpc,
    "--private-key", "0x" ++ keyHex,
    "--broadcast",
    "--gas-price", "20000000000",
    "-vvvv"]

/-- The scanning loop of `Ethereum.ForgeCreate`: walk the output lines; at a
line that has the literal "Deployed to:" at its start, split it into fields
and return field index 2 when the line has more than two fields, otherwise
keep scanning. -/
def findDeployedAddress : List String → Option String
  | [] => none
  | line :: rest =>
    if goStartsWith line "Deployed to:" then
      match (goFields line)[2]? with
      | some addr => some addr
      | none => findDeployedAddress rest
    else findDeployedAddress rest

/-- Model of `Ethereum.ForgeCreate` from the `eth` package: run `forge create`
capturing stdout; on nonzero exit return the process error; otherwise scan
the captured stdout for the deployed address and fall back to the
`AddressNotFoundError` message when no line yields one. -/
def ForgeCreate (run : List String → ToolResult)
    (keyHex contractName contractPath rpc : String) : Except String String :=
  let r := run (forgeCreateArgs keyHex contractName contractPath rpc)
  if r.exitCode = 0 then
    match findDeployedAddress (goSplitLines r.stdout) with
    | some addr => .ok addr
    | none => .error "could not find deployed contract address in output"
  else .error r.errMsg

/-- Specification-side reading of the address extraction: the first output
line that starts with "Deployed to:" and splits into at least three
white-space-delimited fields, mapped to its third field. -/
def forgeAddressOfOutput (output : String) : Option String :=
  ((goSplitLines output).find?
      (fun l => goStartsWith l "Deployed to:" && decide (2 < (goFields l).length))).bind
    (fun l => (goFields l)[2]?)

/-- The argv of the `cast send` child process built by `CastSend`. -/
def castSendArgs (contractAddress functionSig : String) (args : List String)
    (rpcURL privateKey : String) : List String :=
  "cast" :: "send" :: contractAddress :: functionSig ::
    (args ++ ["--rpc-url", rpcURL, "--private-key", privateKey])

/-- Model of `CastSend` from the `eth` package: run `cast send` with stdout and stderr
captured into buffers. The first component is the returned Go error (`none`
on success; the bare process error on failure — the function returns `err`
itself). The second component is what the function prints with `fmt.Printf`:
the captured buffers appear only there. -/
def CastSend (run : List String → ToolResult) (contractAddress functionSig : String)
    (args : List String) (rpcURL privateKey : String) : Option String × String :=
  let r := run (castSendArgs contractAddress functionSig args rpcURL privateKey)
  if r.exitCode = 0 then
    (none, "Successfully called `" ++ functionSig ++ "` on contract " ++ contractAddress
      ++ " with args " ++ fmtStrList args ++ "\nOutput: " ++ r.stdout ++ "\n")
  else
    (some r.errMsg, "Error executing cast send: " ++ r.errMsg ++ "\nStdout: " ++ r.stdout
      ++ "\nStderr: " ++ r.stderr ++ "\n")

/-- The argv of the `cast call` child process built by `CastCall`. -/
def castCallArgs (contractAddress functionSig rpcURL : String) (args : List String) :
    List String :=
  "cast" :: "call" :: contractAddress :: functionSig ::
    (args ++ ["--rpc-url", rpcURL])

/-- Model of `CastCall` from the `eth` package: run `cast call` with stdout and stderr
captured into buffers; on success return the captured stdout trimmed of
leading and trailing white space, on failure the bare process error. The
second component is what the function prints with `fmt.Printf`. -/
def CastCall (run : List String → ToolResult) (contractAddress functionSig rpcURL : String)
    (args : List String) : Except String String × String :=
  let r := run (castCallArgs contractAddress functionSig rpcURL args)
  if r.exitCode = 0 then
    let output := goTrimSpace r.stdout
    (.ok output, "Successfully called `" ++ functionSig ++ "` on contract " ++ contractAddress
      ++ "\nOutput: " ++ output ++ "\n")
  else
    (.error r.errMsg, "Error executing cast call: " ++ r.errMsg ++ "\nStdout: " ++ r.stdout
      ++ "\nStderr: " ++ r.stderr ++ "\n")

/-- A running container as reported by the container runtime's list call:
its runtime identifier and the image reference it was created from. -/
structure DockerContainer where
  ID : String
  Image : String
deriving DecidableEq

/-- Model of `StopContainer` from `jackal_relay.go`. `newClientErr` models the outcome
of creating the Docker client (`none` = created). `stopErr` models the error
value of `cli.ContainerStop`, which the code discards. Result: the returned
Go error, the list of container identifiers a stop call was issued for, and
the log lines written. -/
def StopContainer (newClientErr : Option String) (stopErr : Option String)
    (containerID : String) : Option String × List String × List String :=
  match newClientErr with
  | some e => (some ("failed to create Docker client: " ++ e), [], [])
  | none =>
    let _ := stopErr
    (none, [containerID], ["killed container " ++ containerID])

/-- Model of `StopContainerByImage` from `jackal_relay.go`. `newClientErr` models
Docker client creation, `listResult` the outcome of `cli.ContainerList`.
The code stops every listed container whose image matches, discarding the
stop errors, and logs each kill. Result: the returned Go error, the
identifiers a stop call was issued for, and the log lines written. -/
def StopContainerByImage (newClientErr : Option String)
    (listResult : Except String (List DockerContainer)) (imageName : String) :
    Option String × List String × List String :=
  match newClientErr with
  | some e => (some ("failed to create Docker client: " ++ e), [], [])
  | none =>
    match listResult with
    | .error e => (some ("failed to list Docker containers: " ++ e), [], [])
    | .ok containers =>
      let matched := containers.filter (fun c => c.Image == imageName)
      (none, matched.map (fun c => c.ID), matched.map (fun c => "killed container " ++ c.ID))

/-- Modelled from the spec: the `NetworkConfig` struct itself is declared
outside the embedded files. One entry of the `networks` list of the relay
configuration; its fields `Name`, `RPC`, `WS`, `Contract`, `ChainID` are
those read and written by `jackal_relay.go` and described by the spec's
NetworkConfigEntry. -/
structure NetworkConfig where
  Name : String
  RPC : String
  WS : String
  Contract : String
  ChainID : Int
deriving DecidableEq

/-- Modelled from the spec: the struct is declared outside the embedded
files. The counterpart-chain section of the relay configuration; its fields
`RPC`, `GRPC`, `Contract` are those read and written by `jackal_relay.go`. -/
structure JackalChainConfig where
  RPC : String
  GRPC : String
  Contract : String
deriving DecidableEq

/-- Modelled from the spec: the whole relay configuration document, a list
of network entries plus one counterpart-chain section; the struct itself is
declared outside the embedded files. -/
structure MulberryConfig where
  NetworksConfig : List NetworkConfig
  JackalConfig : JackalChainConfig
deriving DecidableEq

/-- The Go zero value of `MulberryConfig`, produced by `var config
MulberryConfig` when decoding fails. -/
def zeroMulberryConfig : MulberryConfig :=
  { NetworksConfig := [], JackalConfig := { RPC := "", GRPC := "", Contract := "" } }

/-- Modelled from the spec: the file system as seen through the YAML layer,
which is not part of the embedded files. A path maps to the decoded
configuration document its file holds, or to `none` when the file is missing
or malformed; the spec's round-trip invariant lets the file be identified
with its decoded content. -/
abbrev ConfigFS := String → Option MulberryConfig

/-- Model of `decodeConfigYAML` from `jackal_relay.go`, mirroring Go's multiple
return: the decoded document (the zero value on failure) together with the
error. Modelled from the spec at the YAML layer: opening or decoding fails
exactly when the path holds no well-formed document. -/
def decodeConfigYAML (fs : ConfigFS) (configPath : String) : MulberryConfig × Option String :=
  match fs configPath with
  | some config => (config, none)
  | none => (zeroMulberryConfig, some "failed to decode config file")

/-- Model of `encodeConfigYAML` from `jackal_relay.go`: truncate and rewrite the file
at `configPath` with the full document. Modelled from the spec at the YAML
layer: the write replaces the path's decoded content and succeeds. -/
def encodeConfigYAML (fs : ConfigFS) (configPath : String) (config : MulberryConfig) :
    Option String × ConfigFS :=
  (none, fun p => if p = configPath then some config else fs p)

/-- The mutation loop of `UpdateMulberryConfigRPC`: set the RPC and WS fields
of the first entry whose name matches, then break. -/
def setRPCWSFirst : List NetworkConfig → String → String → String → List NetworkConfig
  | [], _, _, _ => []
  | network :: rest, networkName, newRPC, newWS =>
    if network.Name = networkName then
      { network with RPC := newRPC, WS := newWS } :: rest
    else
      network :: setRPCWSFirst rest networkName newRPC newWS

/-- The mutation loop of `UpdateMulberryConfigEVM`: set the Contract and
ChainID fields of the first entry whose name matches, then break. -/
def setContractChainFirst : List NetworkConfig → String → String → Int → List NetworkConfig
  | [], _, _, _ => []
  | network :: rest, networkName, evmBridgeAddress, chainID =>
    if network.Name = networkName then
      { network with Contract := evmBridgeAddress, ChainID := chainID } :: rest
    else
      network :: setContractChainFirst rest networkName evmBridgeAddress chainID

/-- Model of `UpdateMulberryConfigRPC` from `jackal_relay.go`: decode, run the
mutation loop over whatever document the decode produced, and only then check
the decode error; on error return it without writing, otherwise write the
mutated document back. Result: the returned Go error and the file system
after the call. -/
def UpdateMulberryConfigRPC (fs : ConfigFS) (configPath networkName newRPC newWS : String) :
    Option String × ConfigFS :=
  let dec := decodeConfigYAML fs configPath
  let config := { dec.1 with
    NetworksConfig := setRPCWSFirst dec.1.NetworksConfig networkName newRPC newWS }
  match dec.2 with
  | some e => (some e, fs)
  | none => encodeConfigYAML fs configPath config

/-- Model of `UpdateMulberryConfigEVM` from `jackal_relay.go`: same shape as
`UpdateMulberryConfigRPC`, for the Contract and ChainID fields. -/
def UpdateMulberryConfigEVM (fs : ConfigFS)
    (configPath networkName evmBridgeAddress : String) (chainID : Int) :
    Option String × ConfigFS :=
  let dec := decodeConfigYAML fs configPath
  let config := { dec.1 with
    NetworksConfig := setContractChainFirst dec.1.NetworksConfig networkName
      evmBridgeAddress chainID }
  match dec.2 with
  | some e => (some e, fs)
  | none => encodeConfigYAML fs configPath config

theorem findDeployedAddress_eq_spec (lines : List String) :
    findDeployedAddress lines =
      (lines.find?
          (fun l => goStartsWith l "Deployed to:" && decide (2 < (goFields l).length))).bind
        (fun l => (goFields l)[2]?) := by
  induction lines with
  | nil => rfl
  | cons line rest ih =>
    by_cases hs : goStartsWith line "Deployed to:" = true
    · by_cases hlen : 2 < (goFields line).length
      · simp [findDeployedAddress, hs, hlen, List.find?_cons, List.getElem?_eq_getElem hlen]
      · have hnone : (goFields line)[2]? = none :=
          List.getElem?_eq_none_iff.mpr (Nat.not_lt.mp hlen)
        simp [findDeployedAddress, hs, hlen, List.find?_cons, hnone, ih]
    · simp [findDeployedAddress, hs, List.find?_cons, ih]

/-- C1: on zero exit, `ForgeCreate` returns the third white-space field of
the first captured-stdout line that begins with the literal "Deployed to:"
and has at least three fields, and fails with the address-not-found error
when no such line exists. -/
theorem forgeCreate_address_extraction (run : List String → ToolResult)
    (keyHex contractName contractPath rpc : String)
    (h : (run (forgeCreateArgs keyHex contractName contractPath rpc)).exitCode = 0) :
    ForgeCreate run keyHex contractName contractPath rpc =
      match forgeAddressOfOutput
          (run (forgeCreateArgs keyHex contractName contractPath rpc)).stdout with
      | some addr => .ok addr
      | none => .error "could not find deployed contract address in output" := by
  simp only [ForgeCreate, forgeAddressOfOutput, if_pos h, findDeployedAddress_eq_spec]

/-- Concrete child-process run for the deployment example: exit code zero and
a stdout holding a "Deployed to:" line for `0xDEADBEEF...`. -/
def forgeRunExample : List String → ToolResult :=
  fun _ =>
    { exitCode := 0,
      stdout := "Compiling 1 file\nDeployed to: 0xDEADBEEF...\nTransaction hash: 0x1234\n",
      stderr := "",
      errMsg := "" }

/-- C1 witness: the concrete deployment output yields exactly
`0xDEADBEEF...`. -/
theorem forgeCreate_address_extraction_witness :
    ForgeCreate forgeRunExample "ac09" "JackalBridge" "/work/JackalV1.sol"
      "http://127.0.0.1:8545" = .ok "0xDEADBEEF..." := by
  have h := forgeCreate_address_extraction forgeRunExample "ac09" "JackalBridge"
    "/work/JackalV1.sol" "http://127.0.0.1:8545" rfl
  rw [h]
  rfl

theorem startsWithChars_nil (l : List Char) : startsWithChars l [] = true := by
  cases l <;> rfl

theorem startsWithChars_append_self (sub t : List Char) :
    startsWithChars (sub ++ t) sub = true := by
  induction sub with
  | nil => exact startsWithChars_nil t
  | cons c s ih => simp [startsWithChars, ih]

theorem containsChars_nil_sub (l : List Char) : containsChars l [] = true := by
  cases l <;> simp [containsChars, startsWithChars]

theorem containsChars_append_mid (a b c : List Char) :
    containsChars (a ++ (b ++ c)) b = true := by
  induction a with
  | nil =>
    simp only [List.nil_append]
    cases b with
    | nil => exact containsChars_nil_sub c
    | cons x xs =>
      have h := startsWithChars_append_self (x :: xs) c
      simp only [containsChars, List.cons_append] at h ⊢
      simp [h]
  | cons x a' ih =>
    simp [containsChars, ih]

theorem strContains_append_mid (x y z : String) :
    strContains (x ++ y ++ z) y = true := by
  have h : (x ++ y ++ z).data = x.data ++ (y.data ++ z.data) := by
    simp [String.data_append]
  simp only [strContains, h]
  exact containsChars_append_mid x.data y.data z.data

/-- Concrete child-process run for the transfer failure: nonzero exit with a
distinctive captured stderr and the usual process error message. -/
def sendEthRunCex : List String → ToolResult :=
  fun _ =>
    { exitCode := 1, stdout := "", stderr := "boom-stderr-XYZ", errMsg := "exit status 1" }

/-- C5 counterexample: `SendEth` wires the child's stderr to the harness's
own stderr and captures nothing, so on nonzero exit the returned error
message does not contain the tool's stderr — here the stderr is
`boom-stderr-XYZ` and the message omits it, refuting the claim that the
error carries the captured stderr. -/
theorem sendEth_stderr_not_carried_cex :
    SendEth sendEthRunCex "2a87" "0xB0B" "1000" "http://127.0.0.1:8545" =
      some "failed to send eth with cast send 0xB0B --value 1000 --private-key 0x2a87 --rpc-url http://127.0.0.1:8545: exit status 1" ∧
    (sendEthRunCex (sendEthArgs "2a87" "0xB0B" "1000" "http://127.0.0.1:8545")).stderr =
      "boom-stderr-XYZ" ∧
    strContains
      "failed to send eth with cast send 0xB0B --value 1000 --private-key 0x2a87 --rpc-url http://127.0.0.1:8545: exit status 1"
      "boom-stderr-XYZ" = false := by
  refine ⟨rfl, rfl, ?_⟩
  decide

/-- C5 (amended): on nonzero exit `SendEth` fails with an error that carries
the full invocation arguments and the process error; the tool's stderr is
not captured into the error (it is streamed to the harness's own stderr). -/
theorem sendEth_error_carries_args (run : List String → ToolResult)
    (keyHex toAddress amount rpc : String)
    (h : (run (sendEthArgs keyHex toAddress amount rpc)).exitCode ≠ 0) :
    SendEth run keyHex toAddress amount rpc =
      some ("failed to send eth with " ++ goJoin " " (sendEthArgs keyHex toAddress amount rpc)
        ++ ": " ++ (run (sendEthArgs keyHex toAddress amount rpc)).errMsg) ∧
    strContains
      ("failed to send eth with " ++ goJoin " " (sendEthArgs keyHex toAddress amount rpc)
        ++ ": " ++ (run (sendEthArgs keyHex toAddress amount rpc)).errMsg)
      (goJoin " " (sendEthArgs keyHex toAddress amount rpc)) = true := by
  constructor
  · simp [SendEth, h]
  · have hc := strContains_append_mid "failed to send eth with "
      (goJoin " " (sendEthArgs keyHex toAddress amount rpc))
      (": " ++ (run (sendEthArgs keyHex toAddress amount rpc)).errMsg)
    simpa [String.append_assoc] using hc

/-- C5 witness: the amended statement at the concrete failing run. -/
theorem sendEth_error_carries_args_witness :
    SendEth sendEthRunCex "2a87" "0xB0B" "1000" "http://127.0.0.1:8545" =
      some ("failed to send eth with "
        ++ goJoin " " (sendEthArgs "2a87" "0xB0B" "1000" "http://127.0.0.1:8545")
        ++ ": "
        ++ (sendEthRunCex (sendEthArgs "2a87" "0xB0B" "1000" "http://127.0.0.1:8545")).errMsg) ∧
    strContains
      ("failed to send eth with "
        ++ goJoin " " (sendEthArgs "2a87" "0xB0B" "1000" "http://127.0.0.1:8545")
        ++ ": "
        ++ (sendEthRunCex (sendEthArgs "2a87" "0xB0B" "1000" "http://127.0.0.1:8545")).errMsg)
      (goJoin " " (sendEthArgs "2a87" "0xB0B" "1000" "http://127.0.0.1:8545")) = true :=
  sendEth_error_carries_args sendEthRunCex "2a87" "0xB0B" "1000" "http://127.0.0.1:8545"
    (by decide)

/-- Concrete child-process run for a succeeding `cast send`: exit code zero
with the tool-reported transaction data on stdout. -/
def castSendRunOk : List String → ToolResult :=
  fun _ =>
    { exitCode := 0, stdout := "transactionHash 0xdeadbeef", stderr := "", errMsg := "" }

/-- Concrete child-process run for a failing `cast send`. -/
def castSendRunFail : List String → ToolResult :=
  fun _ =>
    { exitCode := 1, stdout := "OUT-token-77", stderr := "ERR-token-88",
      errMsg := "exit status 1" }

/-- C6 counterexample: on zero exit `CastSend` hands nothing back to the
caller (its returned value is the nil error, while the tool-reported
transaction data sits only in the printed console text), and on nonzero exit
the returned error is the bare process error, containing neither the
captured stdout nor the captured stderr. -/
theorem castSend_claim_cex :
    (CastSend castSendRunOk "0xC0" "postFile(string,uint64)" ["m", "1"]
      "http://127.0.0.1:8545" "0xac09").1 = none ∧
    (CastSend castSendRunFail "0xC0" "postFile(string,uint64)" ["m", "1"]
      "http://127.0.0.1:8545" "0xac09").1 = some "exit status 1" ∧
    strContains "exit status 1" "OUT-token-77" = false ∧
    strContains "exit status 1" "ERR-token-88" = false := by
  refine ⟨rfl, rfl, ?_, ?_⟩ <;> decide

/-- C6 (amended): `CastSend` returns no transaction identifier — its
returned value is only an error, `none` on zero exit and the bare process
error on nonzero exit; the captured stdout and stderr are printed to the
console and do not influence the returned value, so the error cannot carry
them. -/
theorem castSend_no_txid_error_independent (run run' : List String → ToolResult)
    (contractAddress functionSig : String) (args : List String)
    (rpcURL privateKey : String)
    (hexit : (run (castSendArgs contractAddress functionSig args rpcURL privateKey)).exitCode
      = (run' (castSendArgs contractAddress functionSig args rpcURL privateKey)).exitCode)
    (herr : (run (castSendArgs contractAddress functionSig args rpcURL privateKey)).errMsg
      = (run' (castSendArgs contractAddress functionSig args rpcURL privateKey)).errMsg) :
    (CastSend run contractAddress functionSig args rpcURL privateKey).1
      = (CastSend run' contractAddress functionSig args rpcURL privateKey).1 ∧
    ((run (castSendArgs contractAddress functionSig args rpcURL privateKey)).exitCode = 0 →
      (CastSend run contractAddress functionSig args rpcURL privateKey).1 = none) ∧
    ((run (castSendArgs contractAddress functionSig args rpcURL privateKey)).exitCode ≠ 0 →
      (CastSend run contractAddress functionSig args rpcURL privateKey).1
        = some (run (castSendArgs contractAddress functionSig args rpcURL privateKey)).errMsg) := by
  by_cases h0 : (run (castSendArgs contractAddress functionSig args rpcURL privateKey)).exitCode = 0
  · refine ⟨?_, fun _ => ?_, fun hne => absurd h0 hne⟩
    · simp [CastSend, h0, ← hexit]
    · simp [CastSend, h0]
  · refine ⟨?_, fun heq => absurd heq h0, fun _ => ?_⟩
    · simp [CastSend, h0, ← hexit, herr]
    · simp [CastSend, h0]

/-- C6 witness: the amended statement at the concrete failing run taken for
both process behaviours. -/
theorem castSend_no_txid_witness :
    (CastSend castSendRunFail "0xC0" "postFile(string,uint64)" ["m", "1"]
      "http://127.0.0.1:8545" "0xac09").1
      = (CastSend castSendRunFail "0xC0" "postFile(string,uint64)" ["m", "1"]
        "http://127.0.0.1:8545" "0xac09").1 ∧
    ((castSendRunFail (castSendArgs "0xC0" "postFile(string,uint64)" ["m", "1"]
        "http://127.0.0.1:8545" "0xac09")).exitCode = 0 →
      (CastSend castSendRunFail "0xC0" "postFile(string,uint64)" ["m", "1"]
        "http://127.0.0.1:8545" "0xac09").1 = none) ∧
    ((castSendRunFail (castSendArgs "0xC0" "postFile(string,uint64)" ["m", "1"]
        "http://127.0.0.1:8545" "0xac09")).exitCode ≠ 0 →
      (CastSend castSendRunFail "0xC0" "postFile(string,uint64)" ["m", "1"]
        "http://127.0.0.1:8545" "0xac09").1
        = some (castSendRunFail (castSendArgs "0xC0" "postFile(string,uint64)" ["m", "1"]
          "http://127.0.0.1:8545" "0xac09")).errMsg) :=
  castSend_no_txid_error_independent castSendRunFail castSendRunFail "0xC0"
    "postFile(string,uint64)" ["m", "1"] "http://127.0.0.1:8545" "0xac09" rfl rfl

theorem goTrimSpace_spec (s : String) :
    ∃ le tr, s.data = le ++ ((goTrimSpace s).data ++ tr) ∧
      (∀ c ∈ le, goIsSpace c = true) ∧
      (∀ c ∈ tr, goIsSpace c = true) ∧
      (∀ c, (goTrimSpace s).data.head? = some c → goIsSpace c = false) ∧
      (∀ c, (goTrimSpace s).data.getLast? = some c → goIsSpace c = false) := by
  refine ⟨s.data.takeWhile goIsSpace,
    ((s.data.dropWhile goIsSpace).reverse.takeWhile goIsSpace).reverse, ?_, ?_, ?_, ?_, ?_⟩
  · have hsplit :
        s.data.dropWhile goIsSpace =
          ((s.data.dropWhile goIsSpace).reverse.dropWhile goIsSpace).reverse ++
            ((s.data.dropWhile goIsSpace).reverse.takeWhile goIsSpace).reverse := by
      conv_lhs => rw [← List.reverse_reverse (s.data.dropWhile goIsSpace),
        ← List.takeWhile_append_dropWhile goIsSpace (s.data.dropWhile goIsSpace).reverse]
      rw [List.reverse_append]
    show s.data
        = s.data.takeWhile goIsSpace ++
          (((s.data.dropWhile goIsSpace).reverse.dropWhile goIsSpace).reverse ++
            ((s.data.dropWhile goIsSpace).reverse.takeWhile goIsSpace).reverse)
    rw [← hsplit, List.takeWhile_append_dropWhile]
  · exact fun c hc => List.mem_takeWhile_imp hc
  · exact fun c hc => List.mem_takeWhile_imp (List.mem_reverse.mp hc)
  · intro c hc
    have hd : ((s.data.dropWhile goIsSpace).reverse.dropWhile goIsSpace).getLast? = some c := by
      rwa [show (goTrimSpace s).data
          = ((s.data.dropWhile goIsSpace).reverse.dropWhile goIsSpace).reverse from rfl,
        List.head?_reverse] at hc
    obtain ⟨pre, hpre⟩ :=
      List.dropWhile_suffix (l := (s.data.dropWhile goIsSpace).reverse) goIsSpace
    have hml : (s.data.dropWhile goIsSpace).reverse.getLast? = some c := by
      rw [← hpre, List.getLast?_append, hd]; rfl
    have hmh : (s.data.dropWhile goIsSpace).head? = some c := by
      rwa [List.getLast?_reverse] at hml
    have hnot := List.head?_dropWhile_not goIsSpace s.data
    rw [hmh] at hnot
    exact hnot
  · intro c hc
    have hd : ((s.data.dropWhile goIsSpace).reverse.dropWhile goIsSpace).head? = some c := by
      rwa [show (goTrimSpace s).data
          = ((s.data.dropWhile goIsSpace).reverse.dropWhile goIsSpace).reverse from rfl,
        List.getLast?_reverse] at hc
    have hnot := List.head?_dropWhile_not goIsSpace (s.data.dropWhile goIsSpace).reverse
    rw [hd] at hnot
    exact hnot

/-- C7: on zero exit `CastCall` returns exactly the captured stdout with its
leading and trailing white space removed: the returned string is the piece of
the stdout left after stripping a fully-white-space ends on both sides, and
it itself neither starts nor ends with white space. -/
theorem castCall_returns_trimmed_stdout (run : List String → ToolResult)
    (contractAddress functionSig rpcURL : String) (args : List String)
    (h : (run (castCallArgs contractAddress functionSig rpcURL args)).exitCode = 0) :
    (CastCall run contractAddress functionSig rpcURL args).1 =
      .ok (goTrimSpace (run (castCallArgs contractAddress functionSig rpcURL args)).stdout) ∧
    ∃ le tr,
      (run (castCallArgs contractAddress functionSig rpcURL args)).stdout.data =
        le ++ ((goTrimSpace
          (run (castCallArgs contractAddress functionSig rpcURL args)).stdout).data ++ tr) ∧
      (∀ c ∈ le, goIsSpace c = true) ∧
      (∀ c ∈ tr, goIsSpace c = true) ∧
      (∀ c, (goTrimSpace
        (run (castCallArgs contractAddress functionSig rpcURL args)).stdout).data.head?
          = some c → goIsSpace c = false) ∧
      (∀ c, (goTrimSpace
        (run (castCallArgs contractAddress functionSig rpcURL args)).stdout).data.getLast?
          = some c → goIsSpace c = false) := by
  constructor
  · simp [CastCall, h]
  · exact goTrimSpace_spec _

/-- Concrete child-process run for a succeeding `cast call`: exit code zero
and a stdout padded with white space around the returned word. -/
def castCallRunExample : List String → ToolResult :=
  fun _ => { exitCode := 0, stdout := "  0x5\n", stderr := "", errMsg := "" }

/-- C7 witness: the trimming statement at the concrete run. -/
theorem castCall_returns_trimmed_stdout_witness :
    (CastCall castCallRunExample "0xC0" "getCount()" "http://127.0.0.1:8545" []).1 =
      .ok (goTrimSpace (castCallRunExample
        (castCallArgs "0xC0" "getCount()" "http://127.0.0.1:8545" [])).stdout) ∧
    ∃ le tr,
      (castCallRunExample
        (castCallArgs "0xC0" "getCount()" "http://127.0.0.1:8545" [])).stdout.data =
        le ++ ((goTrimSpace (castCallRunExample
          (castCallArgs "0xC0" "getCount()" "http://127.0.0.1:8545" [])).stdout).data ++ tr) ∧
      (∀ c ∈ le, goIsSpace c = true) ∧
      (∀ c ∈ tr, goIsSpace c = true) ∧
      (∀ c, (goTrimSpace (castCallRunExample
        (castCallArgs "0xC0" "getCount()" "http://127.0.0.1:8545" [])).stdout).data.head?
          = some c → goIsSpace c = false) ∧
      (∀ c, (goTrimSpace (castCallRunExample
        (castCallArgs "0xC0" "getCount()" "http://127.0.0.1:8545" [])).stdout).data.getLast?
          = some c → goIsSpace c = false) :=
  castCall_returns_trimmed_stdout castCallRunExample "0xC0" "getCount()"
    "http://127.0.0.1:8545" [] rfl

/-- C8: with the Docker client created and the container list retrieved
successfully, an image reference matching no running container makes
`StopContainerByImage` return success while issuing no stop call and writing
no log line. -/
theorem stopContainerByImage_noMatch_ok (containers : List DockerContainer)
    (imageName : String) (h : ∀ c ∈ containers, c.Image ≠ imageName) :
    StopContainerByImage none (.ok containers) imageName = (none, [], []) := by
  have hfilter : containers.filter (fun c => c.Image == imageName) = [] :=
    List.filter_eq_nil_iff.mpr (fun c hc => by simpa using h c hc)
  simp [StopContainerByImage, hfilter]

/-- C8 witness: a listed container of a different image. -/
theorem stopContainerByImage_noMatch_ok_witness :
    StopContainerByImage none
      (.ok [{ ID := "abc123", Image := "biphan4/canine-evm:0.0.0" }])
      "biphan4/mulberry:0.0.0" = (none, [], []) :=
  stopContainerByImage_noMatch_ok
    [{ ID := "abc123", Image := "biphan4/canine-evm:0.0.0" }]
    "biphan4/mulberry:0.0.0" (by decide)

/-- C10: once the Docker client is created, `StopContainer` returns the nil
error and logs the kill whatever the outcome of the underlying container
stop call is — the stop call's error is discarded, so no caller can observe
a failed stop through the return value. -/
theorem stopContainer_ignores_stop_error (stopErr : Option String) (containerID : String) :
    StopContainer none stopErr containerID =
      (none, [containerID], ["killed container " ++ containerID]) :=
  rfl

theorem setContractChainFirst_append (pre : List NetworkConfig) (e : NetworkConfig)
    (post : List NetworkConfig) (networkName evmBridgeAddress : String) (chainID : Int)
    (hpre : ∀ n ∈ pre, n.Name ≠ networkName) (he : e.Name = networkName) :
    setContractChainFirst (pre ++ e :: post) networkName evmBridgeAddress chainID =
      pre ++ { e with Contract := evmBridgeAddress, ChainID := chainID } :: post := by
  induction pre with
  | nil => simp [setContractChainFirst, he]
  | cons x xs ih =>
    have hx : x.Name ≠ networkName := hpre x (by simp)
    simp [setContractChainFirst, hx, ih (fun n hn => hpre n (by simp [hn]))]

theorem setRPCWSFirst_noMatch (l : List NetworkConfig) (networkName newRPC newWS : String)
    (h : ∀ n ∈ l, n.Name ≠ networkName) :
    setRPCWSFirst l networkName newRPC newWS = l := by
  induction l with
  | nil => rfl
  | cons x xs ih =>
    have hx : x.Name ≠ networkName := h x (by simp)
    simp [setRPCWSFirst, hx, ih (fun n hn => h n (by simp [hn]))]

/-- C2: on a document holding an "evm" entry with empty contract and zero
chain identifier, `UpdateMulberryConfigEVM` succeeds and the document then on
file is the old one with exactly that entry's Contract and ChainID replaced:
the entry's other fields, the entries around it and the counterpart section
are untouched. -/
theorem updateMulberryConfigEVM_sets (fs : ConfigFS)
    (configPath evmBridgeAddress : String) (chainID : Int) (config : MulberryConfig)
    (pre post : List NetworkConfig) (e : NetworkConfig)
    (hfile : fs configPath = some config)
    (hsplit : config.NetworksConfig = pre ++ e :: post)
    (hpre : ∀ n ∈ pre, n.Name ≠ "evm")
    (hname : e.Name = "evm") (hcontract : e.Contract = "") (hcid : e.ChainID = 0) :
    (UpdateMulberryConfigEVM fs configPath "evm" evmBridgeAddress chainID).1 = none ∧
    (UpdateMulberryConfigEVM fs configPath "evm" evmBridgeAddress chainID).2 configPath =
      some { config with NetworksConfig :=
        pre ++ { e with Contract := evmBridgeAddress, ChainID := chainID } :: post } := by
  have hdec : decodeConfigYAML fs configPath = (config, none) := by
    simp [decodeConfigYAML, hfile]
  constructor
  · simp [UpdateMulberryConfigEVM, hdec, encodeConfigYAML]
  · simp [UpdateMulberryConfigEVM, hdec, encodeConfigYAML, hsplit,
      setContractChainFirst_append pre e post "evm" evmBridgeAddress chainID hpre hname]

/-- Sample network entry for a counterpart chain ahead of the "evm" one. -/
def solanaEntry : NetworkConfig :=
  { Name := "solana", RPC := "http://sol", WS := "ws://sol", Contract := "0xS", ChainID := 7 }

/-- Sample "evm" network entry with unbound contract fields. -/
def evmEntry : NetworkConfig :=
  { Name := "evm", RPC := "http://old", WS := "ws://old", Contract := "", ChainID := 0 }

/-- Sample network entry after the "evm" one. -/
def baseEntry : NetworkConfig :=
  { Name := "base", RPC := "http://base", WS := "ws://base", Contract := "0xB", ChainID := 9 }

/-- Sample relay configuration document with three network entries. -/
def mulberryConfigExample : MulberryConfig :=
  { NetworksConfig := [solanaEntry, evmEntry, baseEntry],
    JackalConfig := { RPC := "http://jkl", GRPC := "grpc://jkl", Contract := "jkl1contract" } }

/-- Sample file system holding the example document at the relay's
configuration path. -/
def configFSExample : ConfigFS :=
  fun p => if p = "/root/.mulberry/config.yaml" then some mulberryConfigExample else none

/-- C2 witness: the binding update at the concrete document. -/
theorem updateMulberryConfigEVM_sets_witness :
    (UpdateMulberryConfigEVM configFSExample "/root/.mulberry/config.yaml" "evm"
      "0xABC" 31337).1 = none ∧
    (UpdateMulberryConfigEVM configFSExample "/root/.mulberry/config.yaml" "evm"
      "0xABC" 31337).2 "/root/.mulberry/config.yaml" =
      some { mulberryConfigExample with NetworksConfig :=
        [solanaEntry] ++ { evmEntry with Contract := "0xABC", ChainID := 31337 } :: [baseEntry] } :=
  updateMulberryConfigEVM_sets configFSExample "/root/.mulberry/config.yaml" "0xABC" 31337
    mulberryConfigExample [solanaEntry] [baseEntry] evmEntry rfl rfl (by decide) rfl rfl rfl

/-- C3: on a document none of whose entries bears the requested network
name, `UpdateMulberryConfigRPC` reports success and leaves the decoded
content of every path of the file system as it was. -/
theorem updateMulberryConfigRPC_noMatch_noop (fs : ConfigFS)
    (configPath networkName newRPC newWS : String) (config : MulberryConfig)
    (hfile : fs configPath = some config)
    (hmiss : ∀ n ∈ config.NetworksConfig, n.Name ≠ networkName) :
    (UpdateMulberryConfigRPC fs configPath networkName newRPC newWS).1 = none ∧
    ∀ p, (UpdateMulberryConfigRPC fs configPath networkName newRPC newWS).2 p = fs p := by
  have hdec : decodeConfigYAML fs configPath = (config, none) := by
    simp [decodeConfigYAML, hfile]
  have hloop : setRPCWSFirst config.NetworksConfig networkName newRPC newWS
      = config.NetworksConfig :=
    setRPCWSFirst_noMatch _ _ _ _ hmiss
  constructor
  · simp [UpdateMulberryConfigRPC, hdec, encodeConfigYAML]
  · intro p
    simp only [UpdateMulberryConfigRPC, hdec, hloop, encodeConfigYAML]
    by_cases hp : p = configPath
    · subst hp
      simp [hfile]
    · simp [hp]

/-- C3 witness: an update aimed at an absent network name on the concrete
document. -/
theorem updateMulberryConfigRPC_noMatch_noop_witness :
    (UpdateMulberryConfigRPC configFSExample "/root/.mulberry/config.yaml" "wax"
      "http://new" "ws://new").1 = none ∧
    ∀ p, (UpdateMulberryConfigRPC configFSExample "/root/.mulberry/config.yaml" "wax"
      "http://new" "ws://new").2 p = configFSExample p :=
  updateMulberryConfigRPC_noMatch_noop configFSExample "/root/.mulberry/config.yaml" "wax"
    "http://new" "ws://new" mulberryConfigExample rfl (by decide)

/-- C9: when the path holds no decodable document, both update operations
return the decode error and hand back the file system untouched — the error
is checked before the save step ever runs, even though the mutation loop has
already walked the zero-value document. -/
theorem updateMulberryConfig_parse_error_no_write (fs : ConfigFS)
    (configPath networkName newRPC newWS evmBridgeAddress : String) (chainID : Int)
    (hfile : fs configPath = none) :
    UpdateMulberryConfigRPC fs configPath networkName newRPC newWS =
      (some "failed to decode config file", fs) ∧
    UpdateMulberryConfigEVM fs configPath networkName evmBridgeAddress chainID =
      (some "failed to decode config file", fs) := by
  have hdec : decodeConfigYAML fs configPath =
      (zeroMulberryConfig, some "failed to decode config file") := by
    simp [decodeConfigYAML, hfile]
  constructor <;> simp [UpdateMulberryConfigRPC, UpdateMulberryConfigEVM, hdec]

/-- Sample file system with no configuration file anywhere. -/
def emptyConfigFS : ConfigFS := fun _ => none

/-- C9 witness: both updates on the empty file system. -/
theorem updateMulberryConfig_parse_error_no_write_witness :
    UpdateMulberryConfigRPC emptyConfigFS "/root/.mulberry/config.yaml" "evm"
      "http://new" "ws://new" = (some "failed to decode config file", emptyConfigFS) ∧
    UpdateMulberryConfigEVM emptyConfigFS "/root/.mulberry/config.yaml" "evm"
      "0xABC" 31337 = (some "failed to decode config file", emptyConfigFS) :=
  updateMulberryConfig_parse_error_no_write emptyConfigFS "/root/.mulberry/config.yaml"
    "evm" "http://new" "ws://new" "0xABC" 31337 rfl
